import Mathlib

set_option maxRecDepth 8192

/-!
Verification of the carousel prompt-generation engine
(`api/prompt_generator.py`): color math (hex/RGB/HLS), topic and
slide-purpose classification, keyword extraction, seeded design-template
selection, flow descriptions, and the two-layer image-prompt composer.

Modelling conventions:
* Python strings are Lean `String`/`List Char`; `str.lower()` is ASCII
  lowercasing (`lowerChar`), which agrees with Python on the ASCII texts
  this module handles.
* Python `int` is `Int`; Python `%` on integers is `Int.emod` (result has
  the sign of the divisor, matching Python).
* Python floats are modelled as exact rationals `ℚ`; float division by
  zero (`ZeroDivisionError`) is modelled by `pyDiv` returning `none`.
* Fallible Python code (exceptions) returns `Option`; `try/except` is a
  `match` on the `Option`.
-/

namespace CarouselApp

/-- ASCII hexadecimal digit test (`0-9`, `a-f`, `A-F`), stated on
`Char.toNat` so that facts about it reduce to linear arithmetic. -/
def isHexDigitChar (c : Char) : Bool :=
  (48 ≤ c.toNat && c.toNat ≤ 57) || (97 ≤ c.toNat && c.toNat ≤ 102) ||
    (65 ≤ c.toNat && c.toNat ≤ 70)

/-- Whitespace characters stripped by Python `int(str, base)` conversion
(space, tab, LF, VT, FF, CR). -/
def isPySpace (c : Char) : Bool :=
  c.toNat == 32 || (9 ≤ c.toNat && c.toNat ≤ 13)

/-- Numeric value of a hexadecimal digit character. -/
def hexVal (c : Char) : Nat :=
  if c.toNat ≤ 57 then c.toNat - 48
  else if c.toNat ≤ 70 then c.toNat - 55
  else c.toNat - 87

/-- Hexadecimal digit run with optional single underscores between
digits, as accepted by Python `int(s, 16)` after the first digit:
`acc` is the value of the digits already consumed. -/
def hexDigitsCore : List Char → Nat → Option Nat
  | [], acc => some acc
  | c :: rest, acc =>
    if c.toNat = 95 then
      match rest with
      | [] => none
      | c2 :: rest2 =>
        if isHexDigitChar c2 then hexDigitsCore rest2 (acc * 16 + hexVal c2) else none
    else if isHexDigitChar c then hexDigitsCore rest (acc * 16 + hexVal c)
    else none

/-- A nonempty hexadecimal digit sequence (first character must be a
digit, not an underscore). -/
def parseHexNat (cs : List Char) : Option Nat :=
  match cs with
  | [] => none
  | c :: rest => if isHexDigitChar c then hexDigitsCore rest (hexVal c) else none

/-- Digit body of Python `int(s, 16)`: an optional `0x`/`0X` prefix
(possibly followed by one underscore) and then hex digits. -/
def parseHexBody (cs : List Char) : Option Nat :=
  match cs with
  | c0 :: c :: rest =>
    if c0 == '0' && (c == 'x' || c == 'X') then
      match rest with
      | '_' :: rest2 => parseHexNat rest2
      | _ => parseHexNat rest
    else parseHexNat (c0 :: c :: rest)
  | _ => parseHexNat cs

/-- Python `str.strip()` of the whitespace characters recognized by
`int()` conversion. -/
def pyStrip (cs : List Char) : List Char :=
  ((cs.dropWhile isPySpace).reverse.dropWhile isPySpace).reverse

/-- Python `int(s, 16)` on a character list: strip surrounding
whitespace, accept one optional sign, then the digit body.  Returns
`none` where Python raises `ValueError`. -/
def pyIntHex (cs : List Char) : Option Int :=
  match pyStrip cs with
  | [] => none
  | c :: rest =>
    if c == '+' then (parseHexBody rest).map (fun n => (n : Int))
    else if c == '-' then (parseHexBody rest).map (fun n => -(n : Int))
    else (parseHexBody (c :: rest)).map (fun n => (n : Int))

/-- Embeds `hex_to_rgb` from the source: `hex_color.lstrip('#')` then
`int(hex_color[i:i+2], 16)` for `i = 0, 2, 4`; an exception anywhere
(modelled by `none`) propagates to the caller. -/
def hex_to_rgb (hex_color : String) : Option (Int × Int × Int) :=
  let cs := hex_color.data.dropWhile (fun c => c == '#')
  match pyIntHex (cs.take 2), pyIntHex ((cs.drop 2).take 2), pyIntHex ((cs.drop 4).take 2) with
  | some r, some g, some b => some (r, g, b)
  | _, _, _ => none

/-- Python `int()` truncation toward zero of an exact rational. -/
def pyInt (q : ℚ) : Int :=
  if q < 0 then -((-q).floor) else q.floor

/-- Left-pad a digit string with `'0'` to width 2, as `'{:02x}'` does
for nonnegative values. -/
def pad02 (cs : List Char) : List Char :=
  if cs.length < 2 then List.replicate (2 - cs.length) '0' ++ cs else cs

/-- Python `format(n, '02x')` on an integer: lowercase hexadecimal,
zero-padded to width 2 (a negative value keeps its sign). -/
def fmt02x (n : Int) : List Char :=
  if n < 0 then '-' :: Nat.toDigits 16 n.natAbs
  else pad02 (Nat.toDigits 16 n.toNat)

/-- Embeds `rgb_to_hex` from the source:
`'#{:02x}{:02x}{:02x}'.format(int(rgb[0]), int(rgb[1]), int(rgb[2]))`. -/
def rgb_to_hex (rgb : ℚ × ℚ × ℚ) : String :=
  String.mk ('#' :: (fmt02x (pyInt rgb.1) ++ fmt02x (pyInt rgb.2.1) ++ fmt02x (pyInt rgb.2.2)))

/-- Python float division, `none` on a zero divisor
(`ZeroDivisionError`). -/
def pyDiv (a b : ℚ) : Option ℚ :=
  if b = 0 then none else some (a / b)

/-- Python `x % 1.0` for a real value: `x - ⌊x⌋`, always in `[0, 1)`. -/
def pyMod1 (x : ℚ) : ℚ := x - x.floor

/-- Embeds `colorsys.rgb_to_hls`, with floats modelled as exact rationals.
Only the saturation divisor can be zero (the `minc == maxc` guard rules
out a zero range); a zero divisor is a `ZeroDivisionError`, i.e.
`none`. -/
def rgb_to_hls (r g b : ℚ) : Option (ℚ × ℚ × ℚ) :=
  let maxc := max r (max g b)
  let minc := min r (min g b)
  let l := (minc + maxc) / 2
  if minc = maxc then some (0, l, 0)
  else
    let rangec := maxc - minc
    let s? := if l ≤ 1/2 then pyDiv rangec (maxc + minc) else pyDiv rangec (2 - maxc - minc)
    match s? with
    | none => none
    | some s =>
      let rc := (maxc - r) / rangec
      let gc := (maxc - g) / rangec
      let bc := (maxc - b) / rangec
      let h := if r = maxc then bc - gc else if g = maxc then 2 + rc - bc else 4 + gc - rc
      some (pyMod1 (h / 6), l, s)

/-- Embeds `colorsys._v` helper (with the exact constants `1/6`, `1/2`,
`2/3`). -/
def vHLS (m1 m2 hue : ℚ) : ℚ :=
  let hue := pyMod1 hue
  if hue < 1/6 then m1 + (m2 - m1) * hue * 6
  else if hue < 1/2 then m2
  else if hue < 2/3 then m1 + (m2 - m1) * (2/3 - hue) * 6
  else m1

/-- Embeds `colorsys.hls_to_rgb` (no division occurs, so it is total). -/
def hls_to_rgb (h l s : ℚ) : ℚ × ℚ × ℚ :=
  if s = 0 then (l, l, l)
  else
    let m2 := if l ≤ 1/2 then l * (1 + s) else l + s - l * s
    let m1 := 2 * l - m2
    (vHLS m1 m2 (h + 1/3), vHLS m1 m2 h, vHLS m1 m2 (h - 1/3))

/-- Embeds `generate_pastel_variant`: lighten and desaturate in HLS space; the
source's `try/except` returns the fixed pink `'#FFE4EC'` on any
conversion failure (malformed hex, or a zero divisor in
`rgb_to_hls`). -/
def generate_pastel_variant (hex_color : String) (lightness_boost : ℚ) : String :=
  match hex_to_rgb hex_color with
  | none => "#FFE4EC"
  | some (r, g, b) =>
    match rgb_to_hls ((r : ℚ) / 255) ((g : ℚ) / 255) ((b : ℚ) / 255) with
    | none => "#FFE4EC"
    | some (h, l, s) =>
      let l := min 1 (l + lightness_boost)
      let s := max (3/10) (s * (6/10))
      let rgb := hls_to_rgb h l s
      rgb_to_hex (rgb.1 * 255, rgb.2.1 * 255, rgb.2.2 * 255)

/-- Embeds `generate_complementary_color`: rotate hue by 180 degrees; the
source's `try/except` returns the fixed lavender `'#A29BFE'` on any
conversion failure. -/
def generate_complementary_color (hex_color : String) : String :=
  match hex_to_rgb hex_color with
  | none => "#A29BFE"
  | some (r, g, b) =>
    match rgb_to_hls ((r : ℚ) / 255) ((g : ℚ) / 255) ((b : ℚ) / 255) with
    | none => "#A29BFE"
    | some (h, l, s) =>
      let h := pyMod1 (h + 1/2)
      let rgb := hls_to_rgb h l s
      rgb_to_hex (rgb.1 * 255, rgb.2.1 * 255, rgb.2.2 * 255)

/-- ASCII lowercasing of one character, as Python `str.lower()` acts on
the ASCII texts this module handles. -/
def lowerChar (c : Char) : Char :=
  if 65 ≤ c.toNat ∧ c.toNat ≤ 90 then Char.ofNat (c.toNat + 32) else c

/-- Embeds `s.lower()` on a whole string. -/
def lowerString (s : String) : String := String.mk (s.data.map lowerChar)

/-- Is `needle` an initial segment of `haystack`? -/
def startsWithList (needle haystack : List Char) : Bool :=
  match needle, haystack with
  | [], _ => true
  | _ :: _, [] => false
  | a :: as, b :: bs => a == b && startsWithList as bs

/-- Python substring containment `needle in haystack`. -/
def hasSubstr (needle : List Char) : List Char → Bool
  | [] => startsWithList needle []
  | c :: rest => startsWithList needle (c :: rest) || hasSubstr needle rest

/-- Embeds `sum(1 for word in words if word in text)`: how many of the given
keywords occur as substrings of `text`. -/
def countContained (words : List String) (text : List Char) : Nat :=
  words.countP (fun w => hasSubstr w.data text)

/-- The `TOPIC_KEYWORDS` table, in source order (Python dicts preserve
insertion order, which is what `max(d, key=d.get)` ties break on). -/
def TOPIC_KEYWORDS : List (String × List String) := [
  ("business", ["business", "startup", "entrepreneur", "company", "finance", "money", "investment", "sales", "profit", "ceo", "success"]),
  ("marketing", ["marketing", "social media", "instagram", "content", "brand", "audience", "engagement", "viral", "followers", "influencer", "tiktok", "reels"]),
  ("technology", ["tech", "technology", "ai", "software", "app", "digital", "computer", "data", "automation", "code", "programming", "developer"]),
  ("health", ["health", "fitness", "wellness", "diet", "exercise", "mental", "meditation", "yoga", "nutrition", "workout", "gym"]),
  ("lifestyle", ["lifestyle", "life", "daily", "routine", "productivity", "habits", "morning", "self-care", "home"]),
  ("education", ["learn", "education", "course", "study", "teach", "training", "skill", "tips", "how to", "guide", "tutorial"]),
  ("creative", ["art", "design", "creative", "photography", "video", "music", "writing", "craft", "artist"]),
  ("travel", ["travel", "trip", "vacation", "adventure", "destination", "explore", "tourism", "journey"]),
  ("finance", ["finance", "investing", "stocks", "crypto", "wealth", "budget", "savings", "financial"]),
  ("fashion", ["fashion", "style", "outfit", "clothing", "beauty", "makeup", "skincare", "trends"]),
  ("food", ["food", "recipe", "cooking", "chef", "restaurant", "baking", "cuisine", "meal"])]

/-- First pair attaining the maximal score, scanning left to right:
this is exactly what Python `max(d, key=d.get)` returns on an
insertion-ordered dict (ties keep the earlier key). -/
def maxPair : List (String × Nat) → Option (String × Nat)
  | [] => none
  | p :: rest =>
    match maxPair rest with
    | none => some p
    | some q => if p.2 < q.2 then some q else some p

/-- The per-category scores `get_topic_category` computes for a topic
(before dropping the zero scores). -/
def topicScores (topic : String) : List (String × Nat) :=
  TOPIC_KEYWORDS.map (fun p => (p.1, countContained p.2 (topic.data.map lowerChar)))

/-- Embeds `get_topic_category`: score every category by keyword-substring
count over the lowercased topic, keep the positive scores, and return
the first category with the maximal score; `'default'` when nothing
matches. -/
def get_topic_category (topic : String) : String :=
  match maxPair ((topicScores topic).filter (fun p => 0 < p.2)) with
  | some (c, _) => c
  | none => "default"

/-- The `KEYWORD_TO_PURPOSE` table, in source order. -/
def KEYWORD_TO_PURPOSE : List (String × List String) := [
  ("data", ["percent", "percentage", "%", "growth", "increase", "decrease", "revenue", "sales", "metrics", "statistics", "numbers", "data", "rate", "ratio", "score", "results", "quarterly", "annually", "yoy", "mom", "kpi", "roi", "conversion", "profits"]),
  ("process", ["step", "steps", "process", "workflow", "how to", "guide", "method", "procedure", "framework", "system", "approach", "sequence", "phase", "stage", "pipeline"]),
  ("comparison", ["vs", "versus", "compare", "comparison", "difference", "between", "better", "worse", "pros", "cons", "advantages", "disadvantages", "option", "alternative"]),
  ("concept", ["what is", "definition", "meaning", "concept", "idea", "understand", "learn", "discover", "introduce", "about", "overview", "explained", "basics"]),
  ("timeline", ["timeline", "history", "evolution", "journey", "roadmap", "milestone", "future", "past", "present", "year", "quarter", "month", "when", "date", "period"]),
  ("problem_solution", ["problem", "challenge", "issue", "solution", "fix", "solve", "overcome", "struggle", "difficulty", "obstacle", "barrier", "pain point", "mistake"]),
  ("list", ["tip", "tips", "ways", "reasons", "things", "list", "top", "best", "must", "key", "essential", "important", "features", "benefits", "secrets", "hacks", "tricks"]),
  ("quote", ["quote", "said", "says", "according", "expert", "testimonial", "review", "feedback", "opinion", "believe", "philosophy", "wisdom", "inspiration", "motivational"]),
  ("cta", ["follow", "subscribe", "join", "sign up", "start", "get started", "try", "download", "click", "share", "comment", "save", "contact", "book", "call", "action", "now", "today"])]

/-- The per-purpose scores `analyze_slide_purpose` computes over
`f"{title} {description}".lower()`. -/
def purposeScores (title description : String) : List (String × Nat) :=
  let text := (title ++ " " ++ description).data.map lowerChar
  KEYWORD_TO_PURPOSE.map (fun p => (p.1, countContained p.2 text))

/-- Embeds `analyze_slide_purpose`: keyword-scored purpose detection with the
same first-maximum tie break as topic classification; `'concept'` when
no keyword matches. -/
def analyze_slide_purpose (title description : String) : String :=
  match maxPair ((purposeScores title description).filter (fun p => 0 < p.2)) with
  | some (c, _) => c
  | none => "concept"

/-- The stop-word set of `extract_slide_keywords`, in source order. -/
def stop_words : List String := [
  "the", "a", "an", "and", "or", "but", "in", "on", "at", "to", "for",
  "of", "with", "by", "from", "up", "about", "into", "through", "during",
  "is", "are", "was", "were", "be", "been", "being", "have", "has", "had",
  "do", "does", "did", "will", "would", "could", "should", "may", "might",
  "must", "can", "this", "that", "these", "those", "it", "its", "your",
  "you", "we", "they", "our", "their", "how", "why", "what", "when", "where",
  "which", "who", "whom", "whose", "not", "no", "yes", "all", "each", "every",
  "most", "more", "some", "any", "make", "get", "just", "also", "than"]

/-- ASCII letter test, as the regex class `[a-zA-Z]`. -/
def isAsciiAlphaChar (c : Char) : Bool :=
  (65 ≤ c.toNat && c.toNat ≤ 90) || (97 ≤ c.toNat && c.toNat ≤ 122)

/-- Word-constituent character of the regex engine: `[a-zA-Z0-9_]`. -/
def isWordChar (c : Char) : Bool :=
  isAsciiAlphaChar c || (48 ≤ c.toNat && c.toNat ≤ 57) || c.toNat == 95

/-- Split a character list into its maximal runs of word characters
(`cur` is the currently open run, reversed). -/
def wordRunsAux : List Char → List Char → List (List Char)
  | [], cur => if cur.isEmpty then [] else [cur.reverse]
  | c :: cs, cur =>
    if isWordChar c then wordRunsAux cs (c :: cur)
    else if cur.isEmpty then wordRunsAux cs []
    else cur.reverse :: wordRunsAux cs []

/-- Embeds `re.findall(r'\b[a-zA-Z]{3,}\b', text)`: a match is a maximal
word-character run that is entirely alphabetic and has length at least
3 (a digit or underscore in the run destroys both word boundaries). -/
def findWords (text : List Char) : List String :=
  ((wordRunsAux text []).filter (fun r => r.all isAsciiAlphaChar && 3 ≤ r.length)).map
    (fun r => String.mk r)

/-- The keyword-collection loop of `extract_slide_keywords`: skip stop
words and already-seen words, append, and break once `max_keywords` is
reached (the length test runs after the append, as in the source). -/
def extractLoop (max_keywords : Nat) : List String → List String → List String
  | [], acc => acc
  | w :: ws, acc =>
    if !(stop_words.contains w) && !(acc.contains w) then
      let acc' := acc ++ [w]
      if max_keywords ≤ acc'.length then acc' else extractLoop max_keywords ws acc'
    else extractLoop max_keywords ws acc

/-- Embeds `extract_slide_keywords`: tokenize the lowercased
`f"{title} {description}"`, drop stop words, dedupe keeping first
occurrences, and truncate to `max_keywords`. -/
def extract_slide_keywords (title description : String) (max_keywords : Nat) : List String :=
  let words := findWords ((title ++ " " ++ description).data.map lowerChar)
  extractLoop max_keywords words []

/-- One entry of `SLIDE_PURPOSE_TYPES`. -/
structure SlidePurposeType where
  name : String
  description : String
  visual_approach : String
deriving DecidableEq, Repr

/-- The `SLIDE_PURPOSE_TYPES` table. -/
def SLIDE_PURPOSE_TYPES : List (String × SlidePurposeType) := [
  ("data", ⟨"Data/Statistics", "Presenting numbers, percentages, metrics, growth figures", "Charts, graphs, metrics with visual impact"⟩),
  ("process", ⟨"Process/Flow", "Explaining steps, workflows, sequences, how things work", "Flowcharts, step diagrams, connected arrows"⟩),
  ("comparison", ⟨"Comparison/Contrast", "Comparing options, before/after, pros/cons", "Split visuals, comparison tables, side-by-side"⟩),
  ("concept", ⟨"Concept/Definition", "Explaining ideas, defining terms, abstract concepts", "Metaphorical illustrations, conceptual icons"⟩),
  ("timeline", ⟨"Timeline/Sequence", "Historical progression, roadmaps, milestones", "Timeline graphics, milestone markers, journey path"⟩),
  ("problem_solution", ⟨"Problem/Solution", "Identifying issues and proposing fixes", "Before/after visuals, problem icons, solution arrows"⟩),
  ("list", ⟨"List/Itemization", "Bullet points, numbered lists, tips, features", "Icon grids, numbered graphics, checkbox visuals"⟩),
  ("quote", ⟨"Quote/Testimonial", "Inspirational quotes, customer testimonials, expert opinions", "Elegant typography frames, quote marks, portrait frames"⟩),
  ("cta", ⟨"Call-to-Action", "Encouraging action, signup, purchase, follow", "Button graphics, directional arrows, action icons"⟩)]

/-- One entry of `VISUAL_OBJECTS_BY_PURPOSE`. -/
structure PurposeVisuals where
  objects : String
  icons : String
  style : String
deriving DecidableEq, Repr

/-- The `VISUAL_OBJECTS_BY_PURPOSE` table. -/
def VISUAL_OBJECTS_BY_PURPOSE : List (String × PurposeVisuals) := [
  ("data", ⟨"bar chart, line graph, pie chart, metrics dashboard, upward arrow, percentage badge, growth indicator, data visualization panel", "trending up arrow, chart icon, statistics graph, metric counter, progress bar, analytics icon", "clean data visualization, infographic style, bold numbers, highlighted metrics"⟩),
  ("process", ⟨"flowchart diagram, step arrows, numbered circles, process pipeline, gear mechanism, workflow nodes", "connected arrows, step indicators, flow arrows, process wheels, sequential markers", "clean flowchart, numbered steps with connecting lines, process diagram aesthetic"⟩),
  ("comparison", ⟨"split screen layout, comparison table, versus badge, balance scale, side-by-side panels", "vs symbol, comparison arrows, check/x marks, rating stars, pro/con icons", "dual layout, clear separation, before/after effect, contrast zones"⟩),
  ("concept", ⟨"lightbulb illustration, brain graphic, abstract shapes, conceptual diagram, thought bubble", "idea bulb, brain icon, puzzle pieces, concept cloud, abstract symbols", "metaphorical illustration, abstract representation, conceptual visual"⟩),
  ("timeline", ⟨"horizontal timeline, milestone markers, date badges, journey path, roadmap illustration", "calendar icon, clock, milestone flag, date marker, progress dots", "timeline graphic, chronological markers, journey visualization"⟩),
  ("problem_solution", ⟨"broken chain icon, warning symbol, checkmark solution, transformation arrow, before/after split", "warning triangle, problem X, solution checkmark, fix wrench, healing cross", "problem illustration transitioning to solution, transformation visual"⟩),
  ("list", ⟨"numbered list graphic, icon grid, feature boxes, bullet point markers, checklist visual", "numbered badges, checkbox icons, bullet markers, list icons, feature stars", "organized grid layout, numbered or bulleted visual list, icon collection"⟩),
  ("quote", ⟨"large quotation marks, elegant frame, portrait silhouette, speech bubble, testimonial card", "quote marks, speech icon, person silhouette, star rating, testimonial badge", "elegant typography frame, inspirational quote layout, testimonial card design"⟩),
  ("cta", ⟨"call-to-action button, pointing arrow, follow icon, subscribe button, action badge", "arrow pointing right, click cursor, follow plus, subscribe bell, action hand", "prominent action visual, directional emphasis, invitation to act"⟩)]

/-- Embeds `dict.get(key, dflt)` over an association list. -/
def lookupD {α : Type} (m : List (String × α)) (k : String) (dflt : α) : α :=
  match m.find? (fun p => p.1 == k) with
  | some p => p.2
  | none => dflt

/-- The dict returned by `get_purpose_specific_visuals`. -/
structure PurposeSpecificVisuals where
  purpose_name : String
  visual_approach : String
  objects : String
  icons : String
  style : String
  keywords : List String
deriving DecidableEq, Repr

/-- Embeds `get_purpose_specific_visuals`: look up the purpose's visual
vocabulary and type info, with `'concept'` as the fallback entry. -/
def get_purpose_specific_visuals (purpose : String) (keywords : List String) :
    PurposeSpecificVisuals :=
  let purpose_visuals := lookupD VISUAL_OBJECTS_BY_PURPOSE purpose
    (lookupD VISUAL_OBJECTS_BY_PURPOSE "concept" ⟨"", "", ""⟩)
  let purpose_info := lookupD SLIDE_PURPOSE_TYPES purpose
    (lookupD SLIDE_PURPOSE_TYPES "concept" ⟨"", "", ""⟩)
  { purpose_name := purpose_info.name
    visual_approach := purpose_info.visual_approach
    objects := purpose_visuals.objects
    icons := purpose_visuals.icons
    style := purpose_visuals.style
    keywords := keywords }

/-- The dict returned by `get_slide_visual_context`. -/
structure SlideVisualContext where
  purpose_name : String
  visual_approach : String
  objects : String
  icons : String
  style : String
  keywords : List String
  slide_number : Int
  total_slides : Int
  detected_purpose : String
  global_category : String
deriving DecidableEq, Repr

/-- Embeds `get_slide_visual_context`: keyword extraction, purpose detection,
the position-based purpose overrides (`slide_number == 1` forces
`'concept'` unless the raw purpose is `'data'` or `'timeline'`;
otherwise `slide_number == total_slides` forces `'cta'`), and the
purpose-specific visual lookup. -/
def get_slide_visual_context (title description : String) (slide_number total_slides : Int)
    (global_topic : String) : SlideVisualContext :=
  let keywords := extract_slide_keywords title description 5
  let purpose := analyze_slide_purpose title description
  let purpose :=
    if slide_number = 1 then
      if purpose ∈ (["data", "timeline"] : List String) then purpose else "concept"
    else if slide_number = total_slides then "cta"
    else purpose
  let global_category := get_topic_category global_topic
  let visuals := get_purpose_specific_visuals purpose keywords
  { purpose_name := visuals.purpose_name
    visual_approach := visuals.visual_approach
    objects := visuals.objects
    icons := visuals.icons
    style := visuals.style
    keywords := visuals.keywords
    slide_number := slide_number
    total_slides := total_slides
    detected_purpose := purpose
    global_category := global_category }

/-- The opening-slide branch of `get_slide_flow_description`
(`slide_number == 1`). -/
def openingFlow (total_slides : Int) (flow_element : String) : String :=
  "\nVISUAL FLOW POSITION: OPENING SLIDE (1 of " ++ toString total_slides ++ ")\n- "
    ++ flow_element
    ++ " ORIGINATES from the LEFT edge of the composition\n- The element should flow gracefully toward the RIGHT edge\n- Create a sense of beginning - the visual journey starts here\n- Element should EXIT toward the right edge, inviting viewers to swipe\n- Include a subtle \"swipe\" visual cue in bottom area"

/-- The closing-slide branch of `get_slide_flow_description`
(`slide_number == total_slides`). -/
def closingFlow (slide_number total_slides : Int) (flow_element : String) : String :=
  "\nVISUAL FLOW POSITION: CLOSING SLIDE (" ++ toString slide_number ++ " of "
    ++ toString total_slides ++ ")\n- " ++ flow_element
    ++ " ENTERS from the LEFT edge (continuing from previous slide)\n- The element should CONCLUDE gracefully in the center or right area\n- Create a sense of completion and resolution\n- Include visual space for a call-to-action message\n- Design should feel like a satisfying ending to the visual journey"

/-- The middle-slide branch of `get_slide_flow_description`. -/
def middleFlow (slide_number total_slides : Int) (flow_element : String) : String :=
  "\nVISUAL FLOW POSITION: MIDDLE SLIDE (" ++ toString slide_number ++ " of "
    ++ toString total_slides ++ ")\n- " ++ flow_element
    ++ " ENTERS from the LEFT edge (continuing from previous slide)\n- The element should flow ACROSS the composition\n- Element EXITS toward the RIGHT edge (continuing to next slide)\n- Maintain visual rhythm and momentum\n- Keep the flowing element at roughly the same vertical position for continuity"

/-- Embeds `get_slide_flow_description`: the `slide_number == 1` branch is
tested before the `slide_number == total_slides` branch. -/
def get_slide_flow_description (slide_number total_slides : Int) (flow_element : String) :
    String :=
  if slide_number = 1 then openingFlow total_slides flow_element
  else if slide_number = total_slides then closingFlow slide_number total_slides flow_element
  else middleFlow slide_number total_slides flow_element

/-- One entry of `DESIGN_TEMPLATES`. -/
structure DesignTemplate where
  name : String
  description : String
  visual_elements : List String
  flow_element : String
  accent_style : String
  mood : String
  font_color : String
deriving DecidableEq, Repr

/-- The `DESIGN_TEMPLATES` table, in source order. -/
def DESIGN_TEMPLATES : List (String × DesignTemplate) := [
  ("cream_lifestyle", ⟨"Cream Lifestyle", "Warm cream and beige tones with lifestyle objects, cozy and inviting",
    ["Soft cream to warm beige gradient background", "Lifestyle objects arranged artistically (laptop, planner, coffee, plants)", "Natural wood textures and warm lighting", "Subtle sparkle or star accents for elegance"],
    "A subtle warm-toned curved line or shadow", "warm golden highlights", "cozy, warm, and inviting", "#5D4E37"⟩),
  ("soft_beige", ⟨"Soft Beige", "Light beige and off-white with clean minimalist objects",
    ["Clean off-white to light beige background", "Minimalist desk setup with modern devices", "Soft shadows and clean lines", "Subtle geometric accents"],
    "A thin elegant dividing line", "clean shadow effects", "clean, modern, and professional", "#3D3D3D"⟩),
  ("warm_ivory", ⟨"Warm Ivory", "Ivory and pale peach with elegant illustrated people",
    ["Ivory to pale peach gradient background", "Stylized illustrated person working or presenting", "Elegant furniture and workspace elements", "Soft ambient lighting effects"],
    "Flowing illustration that extends across slides", "soft peachy highlights", "elegant and aspirational", "#6B4423"⟩),
  ("light_gray_minimal", ⟨"Light Gray Minimal", "Soft gray with clean professional flat illustrations",
    ["Light gray to white gradient background", "Flat-style illustrated person in business context", "Clean charts, graphs, or business icons", "Minimalist city skyline or office window"],
    "A clean horizontal accent line", "subtle blue-gray accents", "professional and trustworthy", "#2C3E50"⟩),
  ("pastel_blush", ⟨"Pastel Blush", "Very light pink and cream with feminine elegance",
    ["Pale blush pink to cream gradient", "Beauty or lifestyle products arranged elegantly", "Soft floral or abstract organic shapes", "Delicate sparkle and shimmer effects"],
    "A soft curved pastel ribbon", "delicate rose gold accents", "feminine, soft, and elegant", "#8B5A5A"⟩),
  ("clean_white", ⟨"Clean White", "Crisp white with strategic pops of objects and color",
    ["Bright white to very light gray background", "Flat-lay style arrangement of topic-relevant objects", "Strategic negative space for text", "Minimal accent colors only on objects"],
    "A simple connecting line or shape", "clean object placement", "fresh, clean, and modern", "#333333"⟩),
  ("sand_neutral", ⟨"Sand Neutral", "Sandy beige and taupe with earthy warmth",
    ["Warm sand to taupe gradient background", "Natural materials like notebooks, leather, wood", "Earthy textures and organic shapes", "Warm ambient lighting"],
    "An organic curved shape or wave", "warm earthy accents", "grounded, natural, and authentic", "#4A3728"⟩),
  ("pearl_elegant", ⟨"Pearl Elegant", "Pearlescent white and soft gray with luxury feel",
    ["Pearl white to soft silver gradient", "Elegant illustrated professional or lifestyle scene", "Subtle shimmer and light effects", "Premium minimalist design elements"],
    "A subtle gradient transition", "pearlescent sheen", "luxurious and premium", "#2F2F2F"⟩)]

/-- One entry of `TOPIC_COLOR_PALETTES`. `pastel` and `secondary` are
only present after a brand-color override, hence `Option`. -/
structure ColorPalette where
  background : String
  background_alt : String
  accent_bg : String
  font_color : String
  accent : String
  highlight : String
  light : String
  objects : String
  creative_elements : String
  pastel : Option String := none
  secondary : Option String := none
deriving DecidableEq, Repr

/-- The `TOPIC_COLOR_PALETTES` table, in source order. -/
def TOPIC_COLOR_PALETTES : List (String × ColorPalette) := [
  ("business", ⟨"#E8F4FD", "#D0E8FF", "#B8DCFF", "#1A365D", "#0066FF", "#3399FF", "#F0F8FF", "laptop, business charts, coffee cup, notebook, pen, smartphone, office desk, glass wall office, floating UI panels, minimal desk accessories, digital clock, leather chair, desk plant, sticky notes, tablet stand, wireless mouse, presentation screen, business documents, clipboard, file folders", "business infographics, statistics icons, growth charts, professional person in suit, abstract geometric shapes, subtle shadows, corporate illustration style, layered depth, soft reflections, modern gradients, isometric elements, corporate icons, workflow arrows, clean grid layout", none, none⟩),
  ("marketing", ⟨"#FFF0F5", "#FFE4EC", "#FED7E2", "#702459", "#ED64A6", "#F687B3", "#FFF5F7", "phone with instagram, ring light, camera, pink laptop, content calendar, floating emojis, aesthetic props, neon frame, tripod, mic, story stickers, analytics dashboard, brand mood board, marketing funnel chart", "social media icons, heart icons, like buttons, influencer aesthetic, pink neon signs, gradient overlays, viral reel UI, sparkles, glow effects, motion arrows, floating reactions, swipe indicators, CTA buttons", none, none⟩),
  ("technology", ⟨"#E8E0FF", "#D4C4FF", "#C5B3FF", "#2D1B69", "#7C3AED", "#A855F7", "#F5F0FF", "modern laptop, smartphone, tablet, headphones, smart devices, code on screen, holographic screen, glowing keyboard, server racks, VR headset, robotic arm, digital assistant orb, microchips, circuit boards", "circuit patterns, data visualization, tech icons, futuristic UI elements, neon lines, AI brain illustration, cyber grid, HUD overlays, sci-fi lighting, volumetric glow, matrix style code rain", none, none⟩),
  ("health", ⟨"#CCFBF1", "#99F6E4", "#5EEAD4", "#134E4A", "#14B8A6", "#2DD4BF", "#F0FDFA", "yoga mat, water bottle, fresh fruits, plants, fitness equipment, smoothie, smart watch, resistance bands, dumbbells, foam roller, gym towel, protein shaker", "leaves, wellness icons, heart rate graphics, healthy food flat-lay, calm gradients, sunlight rays, zen symbols, breathing patterns, organic shapes, mindfulness icons", none, none⟩),
  ("lifestyle", ⟨"#FEF3C7", "#FDE68A", "#FCD34D", "#78350F", "#F59E0B", "#FBBF24", "#FFFBEB", "planner, coffee, cozy blanket, candles, books, plants, aesthetic desk, ceramic mug, fairy lights, incense, journal, wooden tray, cushions, home decor items", "lifestyle flat-lay, cozy room aesthetic, morning routine items, self-care products, warm shadows, soft textures, lifestyle vignette, ambient lighting, neutral tones", none, none⟩),
  ("education", ⟨"#E0F7FF", "#B8ECFF", "#9BE0FF", "#0C4A6E", "#0EA5E9", "#38BDF8", "#F0FAFF", "books, notebook, pencils, glasses, desk lamp, apple, graduation cap, sticky notes, digital tablet, chalk, ruler, school bag, whiteboard", "study desk setup, lightbulb ideas, brain icons, learning graphics, doodle arrows, chalkboard texture, mind maps, academic diagrams, educational symbols", none, none⟩),
  ("creative", ⟨"#F5D0FE", "#E879F9", "#D946EF", "#701A75", "#C026D3", "#E879F9", "#FDF4FF", "camera, art supplies, sketchbook, color palette, iPad with stylus, paint tubes, creative props, scissors, brushes, markers, canvas board, glue tape", "paint splashes, creative tools, artistic workspace, colorful illustrations, abstract blobs, brush strokes, layered collage, surreal elements, mixed media textures", none, none⟩),
  ("travel", ⟨"#CFFAFE", "#A5F3FC", "#67E8F9", "#164E63", "#06B6D4", "#22D3EE", "#ECFEFF", "passport, boarding pass, camera, suitcase, vintage map, sunglasses, airplane, travel stickers, compass, backpack, travel journal, map pins", "world map, destination pins, travel icons, adventure aesthetic, clouds, motion trails, paper cutouts, postcard style, travel doodles", none, none⟩),
  ("finance", ⟨"#D4FFED", "#A7F3D0", "#6EE7B7", "#064E3B", "#10B981", "#34D399", "#ECFDF5", "calculator, coins, money graphics, financial charts, piggy bank, laptop with graphs, credit cards, wallet, receipt slips, budget notebook", "money icons, growth arrows, financial infographics, investment graphics, glowing bars, stock tickers, upward graphs, profit indicators", none, none⟩),
  ("fashion", ⟨"#FCE7F3", "#FBCFE8", "#F9A8D4", "#831843", "#EC4899", "#F472B6", "#FDF2F8", "clothing rack, fashion accessories, sunglasses, handbag, stylish outfits, mirror, heels, perfume bottle, jewelry, fabric swatches", "fashion sketches, runway aesthetic, style icons, trendy flat-lay, editorial lighting, magazine layout, fashion grids", none, none⟩),
  ("food", ⟨"#FFEDD5", "#FDBA74", "#FB923C", "#7C2D12", "#F97316", "#FB923C", "#FFF7ED", "beautiful food flat-lay, coffee, cooking ingredients, elegant plates, wooden table, herbs, napkin, cutlery, spices, sauce bowls", "food photography, recipe cards, kitchen aesthetic, chef icons, steam effects, rustic textures, overhead composition", none, none⟩),
  ("default", ⟨"#E0E7FF", "#C7D2FE", "#A5B4FC", "#312E81", "#6366F1", "#818CF8", "#EEF2FF", "laptop, notebook, smartphone, coffee cup, modern desk items, ambient props, minimal decor, clean surfaces, neutral accessories", "clean minimalist aesthetic, professional workspace, modern design elements, soft gradients, depth layering, balanced composition", none, none⟩)]

/-- The `default` palette, used as the `.get` fallback. -/
def defaultPalette : ColorPalette :=
  lookupD TOPIC_COLOR_PALETTES "default"
    ⟨"", "", "", "", "", "", "", "", "", none, none⟩

/-- Embeds `get_topic_color_palette`: palette of the detected category, with
caller-supplied brand colors overriding `accent` and adding `pastel`
(and `secondary` when a second brand color exists).  A `None` or empty
brand-color list (both falsy in Python) leaves the palette unchanged. -/
def get_topic_color_palette (topic : String) (brand_colors : List String) : ColorPalette :=
  let category := get_topic_category topic
  let base_palette := lookupD TOPIC_COLOR_PALETTES category defaultPalette
  match brand_colors with
  | [] => base_palette
  | c0 :: rest =>
    let p := { base_palette with accent := c0, pastel := some (generate_pastel_variant c0 (1/4)) }
    match rest with
    | [] => p
    | c1 :: _ => { p with secondary := some c1 }

/-- The `style_preferences` mapping of `select_design_template`. -/
def style_preferences : List (String × List String) := [
  ("modern", ["light_gray_minimal", "clean_white", "soft_beige"]),
  ("minimal", ["clean_white", "soft_beige", "pearl_elegant"]),
  ("playful", ["pastel_blush", "cream_lifestyle", "warm_ivory"]),
  ("professional", ["light_gray_minimal", "soft_beige", "pearl_elegant"]),
  ("creative", ["warm_ivory", "cream_lifestyle", "pastel_blush"]),
  ("elegant", ["pearl_elegant", "warm_ivory", "cream_lifestyle"])]

/-- Python truthiness of an optional string (`None` and `''` are
falsy). -/
def truthyStr : Option String → Bool
  | none => false
  | some s => !(s == "")

/-- The lowercased style hint used as the preference-table key
(`style_hint.lower()`; the empty string when absent). -/
def styleHintKey (style_hint : Option String) : String :=
  match style_hint with
  | some h => lowerString h
  | none => ""

/-- The branch condition of `select_design_template`:
`style_hint and style_hint.lower() in style_preferences`. -/
def styleHintActive (style_hint : Option String) : Bool :=
  truthyStr style_hint && style_preferences.any (fun p => p.1 == styleHintKey style_hint)

/-- Embeds `valid_preferred`: the hint's preference list filtered to template
keys that exist. -/
def validPreferred (style_hint : Option String) : List String :=
  (lookupD style_preferences (styleHintKey style_hint) []).filter
    (fun t => (DESIGN_TEMPLATES.map (fun p => p.1)).contains t)

/-- Embeds `select_design_template`, with the pseudo-random source made
explicit: `σ` is the generator state, `seedFn` is `random.seed`, and
`randbelow g n` draws the index `random.choice` uses on a list of
length `n` (CPython: `seq[self._randbelow(len(seq))]`).  The function
returns the chosen template key and the advanced generator state. -/
def select_design_template {σ : Type} (seedFn : Int → σ) (randbelow : σ → Nat → Nat × σ)
    (g : σ) (seed : Option Int) (style_hint : Option String) : String × σ :=
  let templates := DESIGN_TEMPLATES.map (fun p => p.1)
  let chooseAll : σ → String × σ := fun g0 =>
    let g1 := match seed with
      | some s => seedFn s
      | none => g0
    let kg := randbelow g1 templates.length
    (templates.getD kg.1 "", kg.2)
  if styleHintActive style_hint then
    let valid_preferred := validPreferred style_hint
    if valid_preferred.isEmpty then chooseAll g
    else
      let g1 := match seed with
        | some s => seedFn s
        | none => g
      let kg := randbelow g1 valid_preferred.length
      (valid_preferred.getD kg.1 "", kg.2)
  else chooseAll g

/-- The candidate set the style hint implies: the preference list
filtered to existing templates when the hint matches (and that filtered
list is nonempty), otherwise all template keys. -/
def templateCandidates (style_hint : Option String) : List String :=
  let templates := DESIGN_TEMPLATES.map (fun p => p.1)
  if styleHintActive style_hint then
    if (validPreferred style_hint).isEmpty then templates else validPreferred style_hint
  else templates

/-- Python `str.split(',')` on a character list (`cur` is the current
segment, reversed). -/
def splitOnComma : List Char → List Char → List (List Char)
  | [], cur => [cur.reverse]
  | c :: cs, cur =>
    if c == ',' then cur.reverse :: splitOnComma cs [] else splitOnComma cs (c :: cur)

/-- Embeds `[obj.strip() for obj in objects_str.split(',')]`. -/
def splitStrip (s : String) : List String :=
  (splitOnComma s.data []).map (fun t => String.mk (pyStrip t))

/-- The Layer-1 object-selection loop of
`generate_enhanced_image_prompt`: `for i in range(3)` append
`all_objects[(object_index + i) % len(all_objects)]` unless already
selected. -/
def pickThree (all_objects : List String) (object_index : Nat) : List String :=
  (List.range 3).foldl (fun selected i =>
    let idx := (object_index + i) % all_objects.length
    if selected.contains (all_objects.getD idx "") then selected
    else selected ++ [all_objects.getD idx ""]) []

/-- The objects instruction embedded in the final image prompt: either
the Layer-2 slide-specific visual context, or the Layer-1 fallback
(three rotated topic objects plus one creative element). -/
inductive ObjectsInstruction where
  | layerTwo (ctx : SlideVisualContext) : ObjectsInstruction
  | layerOne (selected_objects : List String) (selected_creative : String) : ObjectsInstruction
deriving DecidableEq, Repr

/-- The semantic payload of `generate_enhanced_image_prompt`: every
input-dependent ingredient of the returned prompt text.  The final
prompt is a fixed literal template interpolating these parts, so it is
not re-modelled as one opaque string. -/
structure EnhancedImagePrompt where
  seed : Int
  template_key : String
  topic_category : String
  color_palette : ColorPalette
  slide_visual_context : Option SlideVisualContext
  flow_desc : String
  objects_instruction : ObjectsInstruction
deriving DecidableEq, Repr

/-- Embeds `generate_enhanced_image_prompt`.  `flowSeedFn` stands for
`generate_carousel_flow_seed` (an MD5-based hash of
`f"{project_id}-{topic}"`, kept abstract: no claim depends on the seed
value, only on it being passed to the seeded template selection);
`seedFn`/`randbelow`/`g` are the explicit pseudo-random source as in
`select_design_template`.  Layer 2 runs exactly when
`if slide_title and slide_description:` is truthy, i.e. both are
present and non-empty. -/
def generate_enhanced_image_prompt {σ : Type} (flowSeedFn : Int → String → Int)
    (seedFn : Int → σ) (randbelow : σ → Nat → Nat × σ) (g : σ) (topic : String)
    (slide_number total_slides : Int) (platform style : String) (brand_colors : List String)
    (project_id : Option Int) (slide_title slide_description : Option String) :
    EnhancedImagePrompt :=
  let _ := platform
  let seed := flowSeedFn (match project_id with | some p => p | none => 0) topic
  let template_key := (select_design_template seedFn randbelow g (some seed) (some style)).1
  let template := lookupD DESIGN_TEMPLATES template_key ⟨"", "", [], "", "", "", ""⟩
  let color_palette := get_topic_color_palette topic brand_colors
  let topic_category := get_topic_category topic
  let slide_visual_context :=
    if truthyStr slide_title && truthyStr slide_description then
      some (get_slide_visual_context (slide_title.getD "") (slide_description.getD "")
        slide_number total_slides topic)
    else none
  let flow_desc := get_slide_flow_description slide_number total_slides template.flow_element
  let objects_instruction :=
    match slide_visual_context with
    | some ctx => ObjectsInstruction.layerTwo ctx
    | none =>
      let all_objects := splitStrip color_palette.objects
      let all_creative := splitStrip color_palette.creative_elements
      let object_index := ((slide_number - 1).emod (all_objects.length : Int)).toNat
      let selected_objects := (pickThree all_objects object_index).take 3
      let creative_index := ((slide_number - 1).emod (all_creative.length : Int)).toNat
      ObjectsInstruction.layerOne selected_objects (all_creative.getD creative_index "")
  { seed := seed, template_key := template_key, topic_category := topic_category,
    color_palette := color_palette, slide_visual_context := slide_visual_context,
    flow_desc := flow_desc, objects_instruction := objects_instruction }

/-- The Layer-1 object pool for a topic: the category palette's comma
separated `objects` string, split and stripped. -/
def layer1ObjectsList (topic : String) (brand_colors : List String) : List String :=
  splitStrip (get_topic_color_palette topic brand_colors).objects

/-- The Layer-1 creative-element pool for a topic. -/
def layer1CreativeList (topic : String) (brand_colors : List String) : List String :=
  splitStrip (get_topic_color_palette topic brand_colors).creative_elements

/-- The object the Layer-1 rotation picks at offset `i` from the start
index `(slide_number - 1) mod len`. -/
def objAt (topic : String) (brand_colors : List String) (slide_number : Int) (i : Nat) : String :=
  let L := layer1ObjectsList topic brand_colors
  L.getD ((((slide_number - 1).emod (L.length : Int)).toNat + i) % L.length) ""

/-- The creative element the Layer-1 rotation picks:
index `(slide_number - 1) mod len`. -/
def creativeAt (topic : String) (brand_colors : List String) (slide_number : Int) : String :=
  let C := layer1CreativeList topic brand_colors
  C.getD (((slide_number - 1).emod (C.length : Int)).toNat) ""

/-- Modelled from the spec: the format `'#RRGGBB'` — a `'#'` followed
by exactly six hexadecimal digits — that §4.1 says is the only input
`hexToRgb` accepts.  This is the spec-side comparator for the error
contract of `hex_to_rgb`; the implementation's actual acceptance is
strictly larger. -/
def specHexFormat (s : String) : Bool :=
  match s.data with
  | c :: cs => c == '#' && cs.length == 6 && cs.all isHexDigitChar
  | [] => false

/-- Largest score in a score list (0 when empty). -/
def maxScore (l : List (String × Nat)) : Nat :=
  l.foldr (fun p m => max p.2 m) 0

theorem maxPair_cons (p : String × Nat) (rest : List (String × Nat)) :
    maxPair (p :: rest) =
      match maxPair rest with
      | none => some p
      | some q => if p.2 < q.2 then some q else some p := rfl

theorem maxPair_eq_none_iff (l : List (String × Nat)) : maxPair l = none ↔ l = [] := by
  cases l with
  | nil => simp [maxPair]
  | cons p rest =>
    rw [maxPair_cons]
    cases h : maxPair rest with
    | none => simp
    | some q =>
      by_cases hlt : p.2 < q.2 <;> simp [hlt]

/-- Fact: `maxPair` returns the first pair whose score equals the maximum, a
score that bounds every entry and equals `maxScore`. -/
theorem maxPair_spec (l : List (String × Nat)) (c : String) (v : Nat)
    (h : maxPair l = some (c, v)) :
    l.find? (fun p => p.2 == v) = some (c, v) ∧ (∀ p ∈ l, p.2 ≤ v) ∧ v = maxScore l := by
  induction l generalizing c v with
  | nil => simp [maxPair] at h
  | cons q rest ih =>
    rw [maxPair_cons] at h
    cases hr : maxPair rest with
    | none =>
      rw [hr] at h
      have hq : q = (c, v) := by simpa using h
      subst hq
      have hrest : rest = [] := (maxPair_eq_none_iff rest).mp hr
      subst hrest
      refine ⟨by simp [List.find?], ?_, by simp [maxScore]⟩
      intro p hp
      simp only [List.mem_singleton] at hp
      subst hp
      exact le_refl _
    | some m =>
      rw [hr] at h
      dsimp only at h
      obtain ⟨hf, hb, hm⟩ := ih m.1 m.2 (by rw [hr])
      by_cases hlt : q.2 < m.2
      · rw [if_pos hlt] at h
        have hq : m = (c, v) := by simpa using h
        rw [hq] at hf hb hm hlt
        refine ⟨?_, ?_, ?_⟩
        · rw [List.find?_cons_of_neg _ (by simp; omega)]
          exact hf
        · intro p hp
          rcases List.mem_cons.mp hp with hp' | hp'
          · subst hp'; omega
          · exact hb p hp'
        · show v = max q.2 (maxScore rest)
          simp only at hm
          omega
      · rw [if_neg hlt] at h
        have hq : q = (c, v) := by simpa using h
        rw [hq] at hlt
        subst hq
        simp only at hlt hm
        refine ⟨?_, ?_, ?_⟩
        · rw [List.find?_cons_of_pos _ (by simp)]
        · intro p hp
          rcases List.mem_cons.mp hp with hp' | hp'
          · subst hp'; exact le_refl _
          · exact le_trans (hb p hp') (by omega)
        · show v = max v (maxScore rest)
          omega

/-- Fact: `find?` commutes with a filter whose predicate is implied by the
search predicate. -/
theorem find?_filter_of_imp {α : Type} (l : List α) (p keep : α → Bool)
    (hpk : ∀ x, p x = true → keep x = true) :
    (l.filter keep).find? p = l.find? p := by
  induction l with
  | nil => rfl
  | cons a l ih =>
    by_cases hk : keep a = true
    · rw [List.filter_cons_of_pos hk]
      by_cases hp : p a = true
      · rw [List.find?_cons_of_pos _ hp, List.find?_cons_of_pos _ hp]
      · rw [List.find?_cons_of_neg _ (by simp [hp]),
          List.find?_cons_of_neg _ (by simp [hp])]
        exact ih
    · have hp : p a = false := by
        rcases hpf : p a with _ | _
        · rfl
        · exact absurd (hpk a hpf) hk
      rw [List.filter_cons_of_neg (by simp [hk]),
        List.find?_cons_of_neg _ (by simp [hp])]
      exact ih

/-- Dropping zero scores does not change the maximal score. -/
theorem maxScore_filter_pos (l : List (String × Nat)) :
    maxScore (l.filter (fun p => 0 < p.2)) = maxScore l := by
  induction l with
  | nil => rfl
  | cons p rest ih =>
    by_cases hp : 0 < p.2
    · rw [List.filter_cons_of_pos (by simpa using hp)]
      rw [show maxScore (p :: List.filter (fun p => decide (0 < p.2)) rest)
          = max p.2 (maxScore (List.filter (fun p => decide (0 < p.2)) rest)) from rfl,
        show maxScore (p :: rest) = max p.2 (maxScore rest) from rfl, ih]
    · have h0 : p.2 = 0 := by omega
      rw [List.filter_cons_of_neg (by simpa using hp)]
      rw [show maxScore (p :: rest) = max p.2 (maxScore rest) from rfl, ih, h0]
      omega

/-- C3: `get_topic_category` returns `'default'` exactly when no
category keyword occurs as a substring of the lowercased topic; the
empty topic yields `'default'` (and no error), and any positive
category score rules `'default'` out. -/
theorem get_topic_category_default_characterization (topic : String) :
    (get_topic_category topic = "default" ↔
      ∀ p ∈ TOPIC_KEYWORDS, ∀ w ∈ p.2,
        hasSubstr w.data (topic.data.map lowerChar) = false) ∧
    get_topic_category "" = "default" ∧
    (∀ p ∈ topicScores topic, 0 < p.2 → get_topic_category topic ≠ "default") := by
  have main : ∀ t : String, (get_topic_category t = "default" ↔
      ∀ p ∈ TOPIC_KEYWORDS, ∀ w ∈ p.2,
        hasSubstr w.data (t.data.map lowerChar) = false) := by
    intro t
    unfold get_topic_category
    cases hm : maxPair ((topicScores t).filter fun p => 0 < p.2) with
    | none =>
      have hnil := (maxPair_eq_none_iff _).mp hm
      have hall : ∀ p ∈ topicScores t, p.2 = 0 := by
        intro p hp
        have := List.filter_eq_nil_iff.mp hnil p hp
        simpa using this
      simp only
      constructor
      · intro _ p hp w hw
        have hsc := hall (p.1, countContained p.2 (t.data.map lowerChar))
          (List.mem_map_of_mem _ hp)
        simp only at hsc
        have := List.countP_eq_zero.mp hsc w hw
        simpa using this
      · intro _; trivial
    | some cv =>
      obtain ⟨c, v⟩ := cv
      obtain ⟨hf, _, _⟩ := maxPair_spec _ c v hm
      have hmemf := List.mem_of_find?_eq_some hf
      have hpos : 0 < v := by simpa using (List.mem_filter.mp hmemf).2
      have hmem : (c, v) ∈ topicScores t := List.mem_of_mem_filter hmemf
      obtain ⟨q, hq, hqe⟩ := List.mem_map.mp hmem
      have hc1 : c = q.1 := by
        have := congrArg Prod.fst hqe
        simpa using this.symm
      have hv : v = countContained q.2 (t.data.map lowerChar) := by
        have := congrArg Prod.snd hqe
        simpa using this.symm
      have hcnames : c ∈ TOPIC_KEYWORDS.map (fun p => p.1) :=
        hc1 ▸ List.mem_map_of_mem _ hq
      have hcne : c ≠ "default" := by
        intro hcd
        rw [hcd] at hcnames
        revert hcnames
        decide
      simp only
      constructor
      · intro hcd
        exact absurd hcd hcne
      · intro hno
        exfalso
        rw [hv] at hpos
        obtain ⟨w, hw, hws⟩ := List.countP_pos_iff.mp hpos
        have := hno q hq w hw
        rw [this] at hws
        exact Bool.false_ne_true hws
  refine ⟨main topic, by decide, ?_⟩
  intro p hp hpos hdef
  have hall := (main topic).mp hdef
  obtain ⟨q, hq, hqe⟩ := List.mem_map.mp hp
  have h0 : countContained q.2 (topic.data.map lowerChar) = 0 :=
    List.countP_eq_zero.mpr (fun w hw => by simp [hall q hq w hw])
  rw [← hqe] at hpos
  simp only at hpos
  omega

/-- Witness for C3 at concrete topics. -/
theorem get_topic_category_default_characterization_witness :
    get_topic_category "" = "default" ∧ get_topic_category "crypto investing" ≠ "default" :=
  ⟨(get_topic_category_default_characterization "").2.1,
   (get_topic_category_default_characterization "crypto investing").2.2 ("finance", 2)
     (by decide) (by decide)⟩

/-- C4: the returned category is the first (in table order) whose score
equals the maximal score, and the scenario topic classifies as
`lifestyle` with score 1. -/
theorem get_topic_category_argmax (topic : String)
    (h : get_topic_category topic ≠ "default") :
    ((topicScores topic).find? (fun p => p.2 == maxScore (topicScores topic))).map Prod.fst
      = some (get_topic_category topic) ∧
    get_topic_category "Top 5 productivity hacks for busy professionals" = "lifestyle" ∧
    ("lifestyle", 1) ∈ topicScores "Top 5 productivity hacks for busy professionals" := by
  refine ⟨?_, by decide, by decide⟩
  unfold get_topic_category at h ⊢
  cases hm : maxPair ((topicScores topic).filter fun p => 0 < p.2) with
  | none =>
    simp [hm] at h
  | some cv =>
    obtain ⟨c, v⟩ := cv
    rw [show (match some (c, v) with
        | some (c, _) => c
        | none => "default") = c from rfl]
    obtain ⟨hf, _, hmax⟩ := maxPair_spec _ c v hm
    have hmemf := List.mem_of_find?_eq_some hf
    have hvpos : 0 < v := by simpa using (List.mem_filter.mp hmemf).2
    have hms : maxScore (topicScores topic) = v := by
      rw [← maxScore_filter_pos, ← hmax]
    rw [hms, ← find?_filter_of_imp (topicScores topic) _ (fun p => 0 < p.2)
      (fun x hx => by simp at hx ⊢; omega), hf]
    rfl

/-- Witness for C4 at the scenario topic. -/
theorem get_topic_category_argmax_witness :
    ((topicScores "Top 5 productivity hacks for busy professionals").find?
        (fun p => p.2 == maxScore (topicScores "Top 5 productivity hacks for busy professionals"))).map
        Prod.fst
      = some (get_topic_category "Top 5 productivity hacks for busy professionals") ∧
    get_topic_category "Top 5 productivity hacks for busy professionals" = "lifestyle" ∧
    ("lifestyle", 1) ∈ topicScores "Top 5 productivity hacks for busy professionals" :=
  get_topic_category_argmax "Top 5 productivity hacks for busy professionals" (by decide)

/-- C7: `generate_pastel_variant` and `generate_complementary_color`
never propagate a failure: a failed hex conversion, or a zero divisor
inside the HLS conversion, yields the fixed fallback colors
`'#FFE4EC'` and `'#A29BFE'`. -/
theorem color_helpers_fallback (s : String) (boost : ℚ) :
    (hex_to_rgb s = none →
      generate_pastel_variant s boost = "#FFE4EC" ∧
        generate_complementary_color s = "#A29BFE") ∧
    (∀ r g b : Int, hex_to_rgb s = some (r, g, b) →
      rgb_to_hls ((r : ℚ) / 255) ((g : ℚ) / 255) ((b : ℚ) / 255) = none →
      generate_pastel_variant s boost = "#FFE4EC" ∧
        generate_complementary_color s = "#A29BFE") := by
  constructor
  · intro h
    constructor <;> simp [generate_pastel_variant, generate_complementary_color, h]
  · intro r g b h1 h2
    constructor <;> simp [generate_pastel_variant, generate_complementary_color, h1, h2]

/-- Witness for C7: a malformed hex string, and a parseable string with
negative components that makes the HLS saturation divisor zero. -/
theorem color_helpers_fallback_witness :
    (generate_pastel_variant "not-a-color" (1/4) = "#FFE4EC" ∧
      generate_complementary_color "not-a-color" = "#A29BFE") ∧
    (generate_pastel_variant "#-1+1+1" (1/4) = "#FFE4EC" ∧
      generate_complementary_color "#-1+1+1" = "#A29BFE") :=
  ⟨(color_helpers_fallback "not-a-color" (1/4)).1 (by decide),
   (color_helpers_fallback "#-1+1+1" (1/4)).2 (-1) 1 1 (by decide)
     (by simp only [rgb_to_hls, pyDiv, max_def, min_def]; norm_num)⟩

/-- C2: the position-based purpose overrides of `analyzeSlide`: on
slide 1 a raw purpose other than `data`/`timeline` is forced to
`concept` while `data`/`timeline` survive, and on the last slide of a
multi-slide carousel the purpose is `cta` unconditionally. -/
theorem get_slide_visual_context_position_rules (title description gt : String)
    (n total : Int) :
    (n = 1 → analyze_slide_purpose title description ∉ (["data", "timeline"] : List String) →
      (get_slide_visual_context title description n total gt).detected_purpose = "concept") ∧
    (n = 1 → analyze_slide_purpose title description ∈ (["data", "timeline"] : List String) →
      (get_slide_visual_context title description n total gt).detected_purpose
        = analyze_slide_purpose title description) ∧
    (n = total → 1 < total →
      (get_slide_visual_context title description n total gt).detected_purpose = "cta") := by
  refine ⟨?_, ?_, ?_⟩
  · rintro rfl h2
    simp [get_slide_visual_context, h2]
  · rintro rfl h2
    simp [get_slide_visual_context, h2]
  · intro h1 h2
    subst h1
    have hne : n ≠ 1 := by omega
    simp [get_slide_visual_context, hne]

/-- Witness for C2: a concept-forced first slide, a surviving `data`
first slide, and a `cta`-forced last slide. -/
theorem get_slide_visual_context_position_rules_witness :
    (get_slide_visual_context "What is AI" "An overview" 1 5 "tech").detected_purpose
      = "concept" ∧
    (get_slide_visual_context "Quarterly Revenue Growth of 40%" "Our numbers" 1 5
      "business").detected_purpose = "data" ∧
    (get_slide_visual_context "Anything" "at all" 5 5 "topic").detected_purpose = "cta" :=
  ⟨(get_slide_visual_context_position_rules "What is AI" "An overview" "tech" 1 5).1
      rfl (by decide),
   ((get_slide_visual_context_position_rules "Quarterly Revenue Growth of 40%" "Our numbers"
      "business" 1 5).2.1 rfl (by decide)).trans (by decide),
   (get_slide_visual_context_position_rules "Anything" "at all" "topic" 5 5).2.2
      rfl (by decide)⟩

/-- C10: a single-slide carousel takes the opening branch of
`get_slide_flow_description` (the `slide_number == 1` test runs first)
and never produces the closing-slide description. -/
theorem get_slide_flow_description_single_slide (e : String) :
    get_slide_flow_description 1 1 e = openingFlow 1 e ∧
      get_slide_flow_description 1 1 e ≠ closingFlow 1 1 e := by
  have heq : get_slide_flow_description 1 1 e = openingFlow 1 e := by
    simp [get_slide_flow_description]
  refine ⟨heq, ?_⟩
  rw [heq]
  intro hcon
  have hlen := congrArg String.length hcon
  simp only [openingFlow, closingFlow, String.length_append] at hlen
  have h1 : "\nVISUAL FLOW POSITION: OPENING SLIDE (1 of ".length = 43 := by decide
  have h2 : (toString (1 : Int)).length = 1 := by decide
  have h3 : (")\n- ").length = 4 := by decide
  have h4 : (" ORIGINATES from the LEFT edge of the composition\n- The element should flow gracefully toward the RIGHT edge\n- Create a sense of beginning - the visual journey starts here\n- Element should EXIT toward the right edge, inviting viewers to swipe\n- Include a subtle \"swipe\" visual cue in bottom area").length = 295 := by decide
  have h5 : "\nVISUAL FLOW POSITION: CLOSING SLIDE (".length = 38 := by decide
  have h6 : (" of ").length = 4 := by decide
  have h7 : (" ENTERS from the LEFT edge (continuing from previous slide)\n- The element should CONCLUDE gracefully in the center or right area\n- Create a sense of completion and resolution\n- Include visual space for a call-to-action message\n- Design should feel like a satisfying ending to the visual journey").length = 294 := by decide
  rw [h1, h2, h3, h4, h5, h6, h7] at hlen
  omega

theorem isHexDigitChar_ranges (c : Char) (h : isHexDigitChar c = true) :
    (48 ≤ c.toNat ∧ c.toNat ≤ 57) ∨ (97 ≤ c.toNat ∧ c.toNat ≤ 102) ∨
      (65 ≤ c.toNat ∧ c.toNat ≤ 70) := by
  have h' := h
  simp only [isHexDigitChar, Bool.or_eq_true, Bool.and_eq_true, decide_eq_true_eq] at h'
  tauto

theorem isPySpace_false_of_ge (c : Char) (h : 48 ≤ c.toNat) : isPySpace c = false := by
  simp only [isPySpace, Bool.or_eq_false_iff]
  constructor
  · simp only [beq_eq_false_iff_ne]
    omega
  · simp only [Bool.and_eq_false_iff]
    right
    simp only [decide_eq_false_iff_not]
    omega

theorem beq_char_false_of_toNat_ne (c d : Char) (h : c.toNat ≠ d.toNat) : (c == d) = false := by
  rw [beq_eq_false_iff_ne]
  intro he
  exact h (he ▸ rfl)

/-- Embeds `int(s, 16)` on a two-hex-digit slice: the value
`hexVal a * 16 + hexVal b`, always at most 255. -/
theorem pyIntHex_two_hexdigits (a b : Char) (ha : isHexDigitChar a = true)
    (hb : isHexDigitChar b = true) :
    pyIntHex [a, b] = some ((hexVal a * 16 + hexVal b : Nat) : Int) ∧
      hexVal a * 16 + hexVal b ≤ 255 := by
  have hra := isHexDigitChar_ranges a ha
  have hrb := isHexDigitChar_ranges b hb
  have hnsa : isPySpace a = false := isPySpace_false_of_ge a (by omega)
  have hnsb : isPySpace b = false := isPySpace_false_of_ge b (by omega)
  have hstrip : pyStrip [a, b] = [a, b] := by
    simp [pyStrip, List.dropWhile, hnsa, hnsb]
  have hplus : (a == '+') = false := beq_char_false_of_toNat_ne a '+'
    (by rw [show ('+').toNat = 43 from rfl]; omega)
  have hminus : (a == '-') = false := beq_char_false_of_toNat_ne a '-'
    (by rw [show ('-').toNat = 45 from rfl]; omega)
  have hbx : (b == 'x') = false := beq_char_false_of_toNat_ne b 'x'
    (by rw [show ('x').toNat = 120 from rfl]; omega)
  have hbX : (b == 'X') = false := beq_char_false_of_toNat_ne b 'X'
    (by rw [show ('X').toNat = 88 from rfl]; omega)
  have hb95 : ¬(b.toNat = 95) := by omega
  constructor
  · rw [pyIntHex, hstrip]
    simp only [hplus, hminus, Bool.false_eq_true, if_false]
    rw [parseHexBody]
    simp only [hbx, hbX, Bool.or_self, Bool.and_false, Bool.false_eq_true, if_false]
    rw [parseHexNat]
    simp only [ha, if_true]
    rw [hexDigitsCore]
    simp only [hb95, if_false, hb, if_true]
    rfl
    intro rest2 hcon
    exact List.noConfusion hcon
  · have hva : hexVal a ≤ 15 := by unfold hexVal; split_ifs <;> omega
    have hvb : hexVal b ≤ 15 := by unfold hexVal; split_ifs <;> omega
    omega

/-- Counterexample to C6 as stated: `'ff0000'` is not of the form
`'#RRGGBB'`, yet `hex_to_rgb` succeeds on it. -/
theorem hex_to_rgb_no_hash_counterexample :
    specHexFormat "ff0000" = false ∧ hex_to_rgb "ff0000" = some (255, 0, 0) := by
  decide

/-- C6 (amended): on every string `'#'` + six hex digits, `hex_to_rgb`
succeeds with components in `[0, 255]`; it fails whenever fewer than 5
characters remain after stripping leading `'#'`s; but its acceptance is
not limited to `'#RRGGBB'` (see the counterexample). -/
theorem hex_to_rgb_amended (s : String) :
    (specHexFormat s = true →
      ∃ r g b : Int, hex_to_rgb s = some (r, g, b) ∧
        0 ≤ r ∧ r ≤ 255 ∧ 0 ≤ g ∧ g ≤ 255 ∧ 0 ≤ b ∧ b ≤ 255) ∧
    ((s.data.dropWhile (fun c => c == '#')).length < 5 → hex_to_rgb s = none) := by
  constructor
  · intro hs
    rw [specHexFormat] at hs
    rcases hd : s.data with _ | ⟨c, cs⟩
    · rw [hd] at hs; simp at hs
    · rw [hd] at hs
      simp only [Bool.and_eq_true, beq_iff_eq] at hs
      obtain ⟨⟨hc, hlen⟩, hall⟩ := hs
      subst hc
      rcases cs with _ | ⟨d1, cs⟩; · simp at hlen
      rcases cs with _ | ⟨d2, cs⟩; · simp at hlen
      rcases cs with _ | ⟨d3, cs⟩; · simp at hlen
      rcases cs with _ | ⟨d4, cs⟩; · simp at hlen
      rcases cs with _ | ⟨d5, cs⟩; · simp at hlen
      rcases cs with _ | ⟨d6, cs⟩; · simp at hlen
      rcases cs with _ | ⟨d7, cs⟩
      swap
      · simp at hlen
      simp only [List.all_cons, List.all_nil, Bool.and_eq_true, Bool.and_true] at hall
      obtain ⟨h1, h2, h3, h4, h5, h6⟩ := hall
      have hd1 : (d1 == '#') = false := by
        have := isHexDigitChar_ranges d1 h1
        exact beq_char_false_of_toNat_ne d1 '#'
          (by rw [show ('#').toNat = 35 from rfl]; omega)
      obtain ⟨hv1, hb1⟩ := pyIntHex_two_hexdigits d1 d2 h1 h2
      obtain ⟨hv2, hb2⟩ := pyIntHex_two_hexdigits d3 d4 h3 h4
      obtain ⟨hv3, hb3⟩ := pyIntHex_two_hexdigits d5 d6 h5 h6
      refine ⟨(hexVal d1 * 16 + hexVal d2 : Nat), (hexVal d3 * 16 + hexVal d4 : Nat),
        (hexVal d5 * 16 + hexVal d6 : Nat), ?_, ?_, ?_, ?_, ?_, ?_, ?_⟩
      · simp only [hex_to_rgb, hd, List.dropWhile]
        simp only [show ('#' == '#') = true from rfl, if_true, hd1, Bool.false_eq_true,
          if_false]
        simp only [List.take, List.drop]
        rw [hv1, hv2, hv3]
      · exact Int.natCast_nonneg _
      · exact_mod_cast hb1
      · exact Int.natCast_nonneg _
      · exact_mod_cast hb2
      · exact Int.natCast_nonneg _
      · exact_mod_cast hb3
  · intro hlen5
    have h3 : ((s.data.dropWhile (fun c => c == '#')).drop 4).take 2 = [] := by
      rw [List.drop_eq_nil_of_le (by omega)]
      rfl
    simp only [hex_to_rgb, h3]
    rcases pyIntHex ((s.data.dropWhile (fun c => c == '#')).take 2) with _ | r
    · rfl
    · rcases pyIntHex (((s.data.dropWhile (fun c => c == '#')).drop 2).take 2) with _ | g
      · rfl
      · rfl

/-- Witness for C6 (amended): a well-formed color succeeds within
bounds, and a short string fails. -/
theorem hex_to_rgb_amended_witness :
    (∃ r g b : Int, hex_to_rgb "#1a2b3c" = some (r, g, b) ∧
      0 ≤ r ∧ r ≤ 255 ∧ 0 ≤ g ∧ g ≤ 255 ∧ 0 ≤ b ∧ b ≤ 255) ∧
    hex_to_rgb "#ab" = none :=
  ⟨(hex_to_rgb_amended "#1a2b3c").1 (by decide),
   (hex_to_rgb_amended "#ab").2 (by decide)⟩

theorem ratFloor_intCast (z : Int) : Rat.floor (z : ℚ) = z := by
  rw [show Rat.floor (z : ℚ) = ⌊(z : ℚ)⌋ from rfl, Int.floor_intCast]

theorem pyInt_intCast (m : Int) : pyInt ((m : ℚ)) = m := by
  rw [pyInt]
  by_cases hm : ((m : ℚ)) < 0
  · rw [if_pos hm, ← Int.cast_neg, ratFloor_intCast, neg_neg]
  · rw [if_neg hm, ratFloor_intCast]

/-- Round-trip of one byte through `'{:02x}'` formatting and
`int(_, 16)` parsing, plus the facts needed to walk `hex_to_rgb`
through the formatted string. -/
theorem fmt02x_roundtrip : ∀ n : Nat, n < 256 →
    fmt02x ((n : Int)) = [Nat.digitChar (n / 16), Nat.digitChar (n % 16)] ∧
    pyIntHex [Nat.digitChar (n / 16), Nat.digitChar (n % 16)] = some ((n : Int)) ∧
    ((Nat.digitChar (n / 16)) == '#') = false := by
  decide

/-- C5: `hex_to_rgb (rgb_to_hex (r, g, b)) = (r, g, b)` for all
integers `r, g, b` in `[0, 255]`. -/
theorem hex_rgb_round_trip (r g b : Int) (hr0 : 0 ≤ r) (hr1 : r ≤ 255) (hg0 : 0 ≤ g)
    (hg1 : g ≤ 255) (hb0 : 0 ≤ b) (hb1 : b ≤ 255) :
    hex_to_rgb (rgb_to_hex ((r : ℚ), (g : ℚ), (b : ℚ))) = some (r, g, b) := by
  obtain ⟨nr, rfl⟩ := Int.eq_ofNat_of_zero_le hr0
  obtain ⟨ng, rfl⟩ := Int.eq_ofNat_of_zero_le hg0
  obtain ⟨nb, rfl⟩ := Int.eq_ofNat_of_zero_le hb0
  have hnr : nr < 256 := by omega
  have hng : ng < 256 := by omega
  have hnb : nb < 256 := by omega
  obtain ⟨f1r, f2r, f3r⟩ := fmt02x_roundtrip nr hnr
  obtain ⟨f1g, f2g, _⟩ := fmt02x_roundtrip ng hng
  obtain ⟨f1b, f2b, _⟩ := fmt02x_roundtrip nb hnb
  rw [rgb_to_hex]
  simp only [pyInt_intCast]
  rw [f1r, f1g, f1b]
  simp only [hex_to_rgb, List.cons_append, List.nil_append, List.dropWhile]
  simp only [show ('#' == '#') = true from rfl, if_true, f3r, Bool.false_eq_true, if_false]
  simp only [List.take, List.drop]
  rw [f2r, f2g, f2b]

/-- Witness for C5 at a concrete byte triple. -/
theorem hex_rgb_round_trip_witness :
    hex_to_rgb (rgb_to_hex (((0 : Int) : ℚ), ((128 : Int) : ℚ), ((255 : Int) : ℚ)))
      = some (0, 128, 255) :=
  hex_rgb_round_trip 0 128 255 (by decide) (by decide) (by decide) (by decide) (by decide)
    (by decide)

theorem contains_eq_false_iff (l : List String) (a : String) :
    l.contains a = false ↔ a ∉ l := by
  rw [Bool.eq_false_iff]
  constructor
  · intro h hm
    exact h (by rw [show l.contains a = l.elem a from rfl]; exact List.elem_iff.mpr hm)
  · intro h hc
    rw [show l.contains a = l.elem a from rfl] at hc
    exact h (List.elem_iff.mp hc)

/-- Every character of every run produced by `wordRunsAux` comes from
the input or the open run. -/
theorem wordRunsAux_chars (cs : List Char) :
    ∀ cur, ∀ r ∈ wordRunsAux cs cur, ∀ c ∈ r, c ∈ cs ∨ c ∈ cur := by
  induction cs with
  | nil =>
    intro cur r hr c hc
    simp only [wordRunsAux] at hr
    by_cases hcur : cur.isEmpty
    · simp [hcur] at hr
    · simp only [hcur, Bool.false_eq_true, if_false, List.mem_singleton] at hr
      subst hr
      right
      simpa using hc
  | cons c0 cs ih =>
    intro cur r hr c hc
    simp only [wordRunsAux] at hr
    by_cases hw : isWordChar c0 = true
    · rw [if_pos hw] at hr
      rcases ih (c0 :: cur) r hr c hc with h | h
      · exact Or.inl (List.mem_cons_of_mem _ h)
      · rcases List.mem_cons.mp h with rfl | h'
        · exact Or.inl (List.mem_cons_self _ _)
        · exact Or.inr h'
    · rw [if_neg hw] at hr
      by_cases hcur : cur.isEmpty
      · rw [if_pos hcur] at hr
        rcases ih [] r hr c hc with h | h
        · exact Or.inl (List.mem_cons_of_mem _ h)
        · simp at h
      · rw [if_neg hcur] at hr
        rcases List.mem_cons.mp hr with rfl | hr'
        · right; simpa using hc
        · rcases ih [] r hr' c hc with h | h
          · exact Or.inl (List.mem_cons_of_mem _ h)
          · simp at h

theorem ofNat_plus32_toNat : ∀ n : Nat, n < 91 → 65 ≤ n →
    (Char.ofNat (n + 32)).toNat = n + 32 := by
  decide

/-- An ASCII letter that survives `lowerChar` is a lowercase letter. -/
theorem lowerChar_alpha_lower (c0 : Char) (h : isAsciiAlphaChar (lowerChar c0) = true) :
    97 ≤ (lowerChar c0).toNat ∧ (lowerChar c0).toNat ≤ 122 := by
  have hr : (65 ≤ (lowerChar c0).toNat ∧ (lowerChar c0).toNat ≤ 90) ∨
      (97 ≤ (lowerChar c0).toNat ∧ (lowerChar c0).toNat ≤ 122) := by
    have h' := h
    simp only [isAsciiAlphaChar, Bool.or_eq_true, Bool.and_eq_true, decide_eq_true_eq] at h'
    tauto
  rcases hr with hr | hr
  · exfalso
    unfold lowerChar at hr
    by_cases hc : 65 ≤ c0.toNat ∧ c0.toNat ≤ 90
    · rw [if_pos hc, ofNat_plus32_toNat c0.toNat (by omega) (by omega)] at hr
      omega
    · rw [if_neg hc] at hr
      omega
  · exact hr

/-- Tokens of `findWords` over lowercased text: length at least 3 and
all characters lowercase ASCII letters. -/
theorem findWords_mem_props (text : List Char) (w : String)
    (hw : w ∈ findWords (text.map lowerChar)) :
    3 ≤ w.data.length ∧ ∀ c ∈ w.data, 97 ≤ c.toNat ∧ c.toNat ≤ 122 := by
  simp only [findWords, List.mem_map] at hw
  obtain ⟨r, hr, rfl⟩ := hw
  obtain ⟨hrmem, hcond⟩ := List.mem_filter.mp hr
  simp only [Bool.and_eq_true, decide_eq_true_eq] at hcond
  obtain ⟨hall, hlen⟩ := hcond
  refine ⟨by simpa using hlen, ?_⟩
  intro c hc
  have hc' : c ∈ r := by simpa using hc
  have halpha : isAsciiAlphaChar c = true := List.all_eq_true.mp hall c hc'
  rcases wordRunsAux_chars (text.map lowerChar) [] r hrmem c hc' with h | h
  · obtain ⟨c0, _, rfl⟩ := List.mem_map.mp h
    exact lowerChar_alpha_lower c0 halpha
  · simp at h

theorem extractLoop_cons (maxK : Nat) (w : String) (ws acc : List String) :
    extractLoop maxK (w :: ws) acc =
      if !(stop_words.contains w) && !(acc.contains w) then
        if maxK ≤ (acc ++ [w]).length then acc ++ [w] else extractLoop maxK ws (acc ++ [w])
      else extractLoop maxK ws acc := rfl

/-- Embeds `extractLoop` appends a stop-word-free subsequence of the word
list to the accumulator. -/
theorem extractLoop_append (maxK : Nat) (ws : List String) :
    ∀ acc, ∃ rest, extractLoop maxK ws acc = acc ++ rest ∧ rest.Sublist ws ∧
      ∀ w ∈ rest, stop_words.contains w = false := by
  induction ws with
  | nil =>
    intro acc
    exact ⟨[], by simp [extractLoop], List.nil_sublist _, by simp⟩
  | cons w ws ih =>
    intro acc
    rw [extractLoop_cons]
    by_cases hcond : (!(stop_words.contains w) && !(acc.contains w)) = true
    · rw [if_pos hcond]
      simp only [Bool.and_eq_true, Bool.not_eq_true'] at hcond
      obtain ⟨hs, _⟩ := hcond
      by_cases hbr : maxK ≤ (acc ++ [w]).length
      · rw [if_pos hbr]
        refine ⟨[w], rfl, (List.nil_sublist ws).cons₂ w, ?_⟩
        intro x hx
        rw [List.mem_singleton] at hx
        subst hx
        exact hs
      · rw [if_neg hbr]
        obtain ⟨rest, he, hsub, hprop⟩ := ih (acc ++ [w])
        refine ⟨w :: rest, by rw [he]; simp, hsub.cons₂ w, ?_⟩
        intro x hx
        rcases List.mem_cons.mp hx with rfl | hx'
        · exact hs
        · exact hprop x hx'
    · rw [if_neg hcond]
      obtain ⟨rest, he, hsub, hprop⟩ := ih acc
      exact ⟨rest, he, hsub.cons _, hprop⟩

/-- Embeds `extractLoop` preserves duplicate-freeness. -/
theorem extractLoop_nodup (maxK : Nat) (ws : List String) :
    ∀ acc, acc.Nodup → (extractLoop maxK ws acc).Nodup := by
  induction ws with
  | nil => intro acc h; simpa [extractLoop] using h
  | cons w ws ih =>
    intro acc h
    rw [extractLoop_cons]
    by_cases hcond : (!(stop_words.contains w) && !(acc.contains w)) = true
    · rw [if_pos hcond]
      simp only [Bool.and_eq_true, Bool.not_eq_true'] at hcond
      obtain ⟨_, han⟩ := hcond
      have hnotmem : w ∉ acc := (contains_eq_false_iff acc w).mp han
      have hacc' : (acc ++ [w]).Nodup := by simp [List.nodup_append, h, hnotmem]
      by_cases hbr : maxK ≤ (acc ++ [w]).length
      · rw [if_pos hbr]; exact hacc'
      · rw [if_neg hbr]; exact ih _ hacc'
    · rw [if_neg hcond]; exact ih _ h

/-- Embeds `extractLoop` never exceeds `max_keywords` once the accumulator is
below the bound. -/
theorem extractLoop_length (maxK : Nat) (ws : List String) :
    ∀ acc, acc.length < maxK → (extractLoop maxK ws acc).length ≤ maxK := by
  induction ws with
  | nil => intro acc h; simp only [extractLoop]; omega
  | cons w ws ih =>
    intro acc h
    rw [extractLoop_cons]
    by_cases hcond : (!(stop_words.contains w) && !(acc.contains w)) = true
    · rw [if_pos hcond]
      by_cases hbr : maxK ≤ (acc ++ [w]).length
      · rw [if_pos hbr]
        simp only [List.length_append, List.length_singleton]
        omega
      · rw [if_neg hbr]
        refine ih _ ?_
        simp only [List.length_append, List.length_singleton] at hbr ⊢
        omega
    · rw [if_neg hcond]
      exact ih _ h

/-- C8: `extract_slide_keywords` returns a duplicate-free subsequence
of the token stream, of length at most `max_keywords`, consisting of
lowercase alphabetic non-stop-words of length at least 3; and the
scenario input returns exactly
`["start", "investing", "today", "learn", "basics"]`. -/
theorem extract_slide_keywords_spec (title description : String) (maxK : Nat)
    (h1 : 1 ≤ maxK) :
    (extract_slide_keywords title description maxK).Nodup ∧
    (extract_slide_keywords title description maxK).length ≤ maxK ∧
    (extract_slide_keywords title description maxK).Sublist
      (findWords ((title ++ " " ++ description).data.map lowerChar)) ∧
    (∀ w ∈ extract_slide_keywords title description maxK,
      stop_words.contains w = false ∧ 3 ≤ w.data.length ∧
        ∀ c ∈ w.data, 97 ≤ c.toNat ∧ c.toNat ≤ 122) ∧
    extract_slide_keywords "How to Start Investing Today"
      "Learn the basics of the stock market" 5
      = ["start", "investing", "today", "learn", "basics"] := by
  obtain ⟨rest, he, hsub, hprop⟩ :=
    extractLoop_append maxK (findWords ((title ++ " " ++ description).data.map lowerChar)) []
  have heq : extract_slide_keywords title description maxK = rest := by
    rw [extract_slide_keywords, he]
    simp
  refine ⟨?_, ?_, ?_, ?_, by decide⟩
  · rw [extract_slide_keywords]
    exact extractLoop_nodup _ _ [] (by simp)
  · rw [extract_slide_keywords]
    exact extractLoop_length _ _ [] (by simpa using h1)
  · rw [heq]
    exact hsub
  · intro w hw
    rw [heq] at hw
    have hmem := hsub.subset hw
    obtain ⟨hlen3, hlower⟩ := findWords_mem_props _ w hmem
    exact ⟨hprop w hw, hlen3, hlower⟩

/-- Witness for C8 at the scenario input. -/
theorem extract_slide_keywords_spec_witness :
    extract_slide_keywords "How to Start Investing Today"
      "Learn the basics of the stock market" 5
      = ["start", "investing", "today", "learn", "basics"] :=
  (extract_slide_keywords_spec "How to Start Investing Today"
    "Learn the basics of the stock market" 5 (by decide)).2.2.2.2

theorem getD_mem_of_lt {l : List String} {k : Nat} (hk : k < l.length) :
    l.getD k "" ∈ l := by
  rw [List.getD_eq_getElem _ _ hk]
  exact List.getElem_mem hk

/-- C1: with an integer seed, `select_design_template` does not depend
on the incoming generator state (same `(seed, styleHint)` always gives
the same key), and the returned key lies in the candidate set implied
by the style hint (the filtered preference list when the hint matches
and that list is nonempty, otherwise all of `DESIGN_TEMPLATES`). -/
theorem select_design_template_det_and_mem {σ : Type} (seedFn : Int → σ)
    (randbelow : σ → Nat → Nat × σ)
    (hrb : ∀ g0 n, 0 < n → (randbelow g0 n).1 < n) (g g' : σ) (s : Int)
    (style_hint : Option String) :
    (select_design_template seedFn randbelow g (some s) style_hint).1
      = (select_design_template seedFn randbelow g' (some s) style_hint).1 ∧
    (select_design_template seedFn randbelow g (some s) style_hint).1
      ∈ templateCandidates style_hint := by
  simp only [select_design_template, templateCandidates]
  by_cases hcond : styleHintActive style_hint = true
  · rw [if_pos hcond, if_pos hcond]
    by_cases hvp : (validPreferred style_hint).isEmpty = true
    · rw [if_pos hvp, if_pos hvp]
      exact ⟨trivial, getD_mem_of_lt (hrb _ _ (by decide))⟩
    · rw [if_neg hvp, if_neg hvp]
      have hpos : 0 < (validPreferred style_hint).length :=
        List.length_pos.mpr (fun hnil => hvp (List.isEmpty_iff.mpr hnil))
      exact ⟨trivial, getD_mem_of_lt (hrb _ _ hpos)⟩
  · rw [if_neg hcond, if_neg hcond]
    exact ⟨trivial, getD_mem_of_lt (hrb _ _ (by decide))⟩

/-- Witness for C1 with a concrete generator and the `modern` hint. -/
theorem select_design_template_det_and_mem_witness :
    (select_design_template (fun _ : Int => ()) (fun _ n => (n - 1, ())) () (some 7)
        (some "modern")).1
      = (select_design_template (fun _ : Int => ()) (fun _ n => (n - 1, ())) () (some 7)
        (some "modern")).1 ∧
    (select_design_template (fun _ : Int => ()) (fun _ n => (n - 1, ())) () (some 7)
        (some "modern")).1 ∈ templateCandidates (some "modern") :=
  select_design_template_det_and_mem (fun _ : Int => ()) (fun _ n => (n - 1, ()))
    (fun _ _ h => Nat.sub_lt h Nat.one_pos) () () 7 (some "modern")

theorem nodup_getD_ne (l : List String) (hnd : l.Nodup) {i j : Nat} (hi : i < l.length)
    (hj : j < l.length) (hij : i ≠ j) : l.getD i "" ≠ l.getD j "" := by
  rw [List.getD_eq_getElem _ _ hi, List.getD_eq_getElem _ _ hj]
  intro he
  have hinj := List.nodup_iff_injective_get.mp hnd
  have hfin : (⟨i, hi⟩ : Fin l.length) = ⟨j, hj⟩ :=
    hinj (by simpa [List.get_eq_getElem] using he)
  exact hij (congrArg Fin.val hfin)

/-- The category returned by `get_topic_category` is `'default'` or one
of the table's category names. -/
theorem get_topic_category_cases (topic : String) :
    get_topic_category topic = "default" ∨
      get_topic_category topic ∈ TOPIC_KEYWORDS.map (fun p => p.1) := by
  unfold get_topic_category
  cases hm : maxPair ((topicScores topic).filter fun p => 0 < p.2) with
  | none => exact Or.inl rfl
  | some cv =>
    obtain ⟨c, v⟩ := cv
    right
    rw [show (match some (c, v) with
        | some (c, _) => c
        | none => "default") = c from rfl]
    obtain ⟨hf, _, _⟩ := maxPair_spec _ c v hm
    have hmem : (c, v) ∈ topicScores topic :=
      List.mem_of_mem_filter (List.mem_of_find?_eq_some hf)
    obtain ⟨q, hq, hqe⟩ := List.mem_map.mp hmem
    have hc1 : c = q.1 := by
      have := congrArg Prod.fst hqe
      simpa using this.symm
    exact hc1 ▸ List.mem_map_of_mem _ hq

/-- Three rotated indices `i0, (i0+1) % len, (i0+2) % len` are pairwise
distinct once the list has at least three entries. -/
theorem rotated_indices_distinct (L i0 : Nat) (h3 : 3 ≤ L) (hi : i0 < L) :
    (i0 + 1) % L < L ∧ (i0 + 2) % L < L ∧
      i0 ≠ (i0 + 1) % L ∧ i0 ≠ (i0 + 2) % L ∧ (i0 + 1) % L ≠ (i0 + 2) % L := by
  have hi1 : (i0 + 1) % L < L := Nat.mod_lt _ (by omega)
  have hi2 : (i0 + 2) % L < L := Nat.mod_lt _ (by omega)
  have he1 : (i0 + 1) % L = if i0 + 1 < L then i0 + 1 else 0 := by
    by_cases hc : i0 + 1 < L
    · rw [if_pos hc, Nat.mod_eq_of_lt hc]
    · have he : i0 + 1 = L := by omega
      rw [if_neg hc, he, Nat.mod_self]
  have he2 : (i0 + 2) % L = if i0 + 2 < L then i0 + 2 else if i0 + 1 < L then 0 else 1 := by
    by_cases hc : i0 + 2 < L
    · rw [if_pos hc, Nat.mod_eq_of_lt hc]
    · rw [if_neg hc]
      by_cases hc' : i0 + 1 < L
      · have he : i0 + 2 = L := by omega
        rw [if_pos hc', he, Nat.mod_self]
      · have he : i0 + 2 = L + 1 := by omega
        rw [if_neg hc', he, Nat.add_mod_left, Nat.mod_eq_of_lt (by omega)]
  refine ⟨hi1, hi2, ?_, ?_, ?_⟩ <;> simp only [he1, he2] <;> split_ifs <;> omega

/-- The Layer-1 selection loop picks exactly the three rotated entries
when the pool is duplicate-free with at least three entries. -/
theorem pickThree_window (l : List String) (hnd : l.Nodup) (h3 : 3 ≤ l.length) (i0 : Nat)
    (hi : i0 < l.length) :
    pickThree l i0 = [l.getD i0 "", l.getD ((i0 + 1) % l.length) "",
      l.getD ((i0 + 2) % l.length) ""] ∧
    (pickThree l i0).Nodup := by
  obtain ⟨hi1, hi2, hne01, hne02, hne12⟩ := rotated_indices_distinct l.length i0 h3 hi
  have hne10 := nodup_getD_ne l hnd hi1 hi (Ne.symm hne01)
  have hne20 := nodup_getD_ne l hnd hi2 hi (Ne.symm hne02)
  have hne21 := nodup_getD_ne l hnd hi2 hi1 (Ne.symm hne12)
  have hb10 := beq_eq_false_iff_ne.mpr hne10
  have hb20 := beq_eq_false_iff_ne.mpr hne20
  have hb21 := beq_eq_false_iff_ne.mpr hne21
  have hi0e : (i0 + 0) % l.length = i0 := by
    rw [Nat.add_zero, Nat.mod_eq_of_lt hi]
  have hmain : pickThree l i0 = [l.getD i0 "", l.getD ((i0 + 1) % l.length) "",
      l.getD ((i0 + 2) % l.length) ""] := by
    rw [pickThree, show List.range 3 = [0, 1, 2] from rfl]
    simp only [List.foldl_cons, List.foldl_nil, hi0e]
    simp only [List.contains, List.elem, hb10, hb20, hb21]
    rfl
  refine ⟨hmain, ?_⟩
  rw [hmain, List.nodup_cons, List.nodup_cons]
  refine ⟨?_, ?_, List.nodup_singleton _⟩
  · intro hmem
    rcases List.mem_cons.mp hmem with he | he
    · exact hne10 he.symm
    · rw [List.mem_singleton] at he
      exact hne20 he.symm
  · intro hmem
    rw [List.mem_singleton] at hmem
    exact hne21 hmem.symm

/-- The brand-color override never touches the palette's `objects` or
`creative_elements`. -/
theorem get_topic_color_palette_pools (topic : String) (brand : List String) :
    (get_topic_color_palette topic brand).objects
      = (lookupD TOPIC_COLOR_PALETTES (get_topic_category topic) defaultPalette).objects ∧
    (get_topic_color_palette topic brand).creative_elements
      = (lookupD TOPIC_COLOR_PALETTES (get_topic_category topic)
          defaultPalette).creative_elements := by
  rcases brand with _ | ⟨c0, rest⟩
  · exact ⟨rfl, rfl⟩
  · rcases rest with _ | ⟨c1, rest⟩ <;> exact ⟨rfl, rfl⟩

/-- For every reachable category, the Layer-1 object pool is
duplicate-free with at least three entries, and the creative pool is
nonempty. -/
theorem layer1_pools_good (topic : String) (brand : List String) :
    (layer1ObjectsList topic brand).Nodup ∧ 3 ≤ (layer1ObjectsList topic brand).length ∧
      0 < (layer1CreativeList topic brand).length := by
  obtain ⟨ho, hc⟩ := get_topic_color_palette_pools topic brand
  rw [layer1ObjectsList, layer1CreativeList, ho, hc]
  rcases get_topic_category_cases topic with hcat | hcat
  · rw [hcat]; refine ⟨by decide, by decide, by decide⟩
  · rw [show TOPIC_KEYWORDS.map (fun p => p.1) = ["business", "marketing", "technology",
      "health", "lifestyle", "education", "creative", "travel", "finance", "fashion",
      "food"] from rfl] at hcat
    simp only [List.mem_cons, List.not_mem_nil, or_false] at hcat
    rcases hcat with h | h | h | h | h | h | h | h | h | h | h <;> rw [h] <;>
      exact ⟨by decide, by decide, by decide⟩

/-- Counterexample to C9 as stated: both `slideTitle` and
`slideDescription` are supplied (as `some ""`), yet Layer 2 does not
run, because `if slide_title and slide_description:` tests Python
truthiness and the empty string is falsy. -/
theorem generate_enhanced_image_prompt_supplied_empty_counterexample :
    (some "" : Option String).isSome = true ∧
    (generate_enhanced_image_prompt (fun _ _ => 0) (fun _ : Int => ()) (fun _ _ => (0, ()))
        () "business growth" 2 5 "instagram" "modern" [] none (some "")
        (some "")).slide_visual_context = none := by
  exact ⟨rfl, rfl⟩

/-- C9 (amended): Layer 2 runs exactly when both slide title and
description are supplied and non-empty (Python truthiness); otherwise
the prompt's objects instruction is the Layer-1 fallback, which picks
the three pairwise-distinct objects rotated from index
`(slide_number - 1) % len` of the category's object pool, and the
creative element at index `(slide_number - 1) % len` of the creative
pool. -/
theorem generate_enhanced_image_prompt_layer_rule {σ : Type}
    (flowSeedFn : Int → String → Int) (seedFn : Int → σ) (randbelow : σ → Nat → Nat × σ)
    (g : σ) (topic : String) (n total : Int) (platform style : String)
    (brand : List String) (pid : Option Int) (st sd : Option String) :
    ((truthyStr st && truthyStr sd) = true →
      (generate_enhanced_image_prompt flowSeedFn seedFn randbelow g topic n total platform
          style brand pid st sd).slide_visual_context
        = some (get_slide_visual_context (st.getD "") (sd.getD "") n total topic) ∧
      (generate_enhanced_image_prompt flowSeedFn seedFn randbelow g topic n total platform
          style brand pid st sd).objects_instruction
        = ObjectsInstruction.layerTwo
            (get_slide_visual_context (st.getD "") (sd.getD "") n total topic)) ∧
    ((truthyStr st && truthyStr sd) = false →
      (generate_enhanced_image_prompt flowSeedFn seedFn randbelow g topic n total platform
          style brand pid st sd).slide_visual_context = none ∧
      (generate_enhanced_image_prompt flowSeedFn seedFn randbelow g topic n total platform
          style brand pid st sd).objects_instruction
        = ObjectsInstruction.layerOne
            [objAt topic brand n 0, objAt topic brand n 1, objAt topic brand n 2]
            (creativeAt topic brand n) ∧
      [objAt topic brand n 0, objAt topic brand n 1, objAt topic brand n 2].Nodup) := by
  constructor
  · intro hc
    constructor
    · simp only [generate_enhanced_image_prompt, hc, if_true]
    · simp only [generate_enhanced_image_prompt, hc, if_true]
  · intro hc
    obtain ⟨hnd, h3, hcre⟩ := layer1_pools_good topic brand
    have hLpos : (0 : Int) < ((layer1ObjectsList topic brand).length : Int) := by
      exact_mod_cast by omega
    have hi0 : (((n - 1).emod ((layer1ObjectsList topic brand).length : Int)).toNat)
        < (layer1ObjectsList topic brand).length := by
      have h1 : 0 ≤ (n - 1).emod ((layer1ObjectsList topic brand).length : Int) :=
        Int.emod_nonneg _ (by omega)
      have h2 : (n - 1).emod ((layer1ObjectsList topic brand).length : Int)
          < ((layer1ObjectsList topic brand).length : Int) :=
        Int.emod_lt_of_pos _ hLpos
      omega
    obtain ⟨hwin, hwnodup⟩ := pickThree_window (layer1ObjectsList topic brand) hnd h3 _ hi0
    have hobj : ∀ i : Nat, objAt topic brand n i = (layer1ObjectsList topic brand).getD
        ((((n - 1).emod ((layer1ObjectsList topic brand).length : Int)).toNat + i)
          % (layer1ObjectsList topic brand).length) "" := fun i => rfl
    have hobj0 : objAt topic brand n 0 = (layer1ObjectsList topic brand).getD
        (((n - 1).emod ((layer1ObjectsList topic brand).length : Int)).toNat) "" := by
      rw [hobj 0, Nat.add_zero, Nat.mod_eq_of_lt hi0]
    refine ⟨?_, ?_, ?_⟩
    · simp only [generate_enhanced_image_prompt, hc, Bool.false_eq_true, if_false]
    · simp only [generate_enhanced_image_prompt, hc, Bool.false_eq_true, if_false]
      rw [hobj0, hobj 1, hobj 2, show splitStrip (get_topic_color_palette topic brand).objects
          = layer1ObjectsList topic brand from rfl, hwin]
      rfl
    · rw [hobj0, hobj 1, hobj 2]
      rw [hwin] at hwnodup
      exact hwnodup

/-- Witness for C9 (amended): real slide text runs Layer 2; an absent
title falls back to the Layer-1 rotation. -/
theorem generate_enhanced_image_prompt_layer_rule_witness :
    ((generate_enhanced_image_prompt (fun _ _ => 0) (fun _ : Int => ()) (fun _ _ => (0, ()))
        () "travel tips" 3 5 "instagram" "modern" [] none (some "Pack light")
        (some "Bring fewer bags")).slide_visual_context
      = some (get_slide_visual_context "Pack light" "Bring fewer bags" 3 5 "travel tips") ∧
      (generate_enhanced_image_prompt (fun _ _ => 0) (fun _ : Int => ()) (fun _ _ => (0, ()))
        () "travel tips" 3 5 "instagram" "modern" [] none (some "Pack light")
        (some "Bring fewer bags")).objects_instruction
      = ObjectsInstruction.layerTwo
          (get_slide_visual_context "Pack light" "Bring fewer bags" 3 5 "travel tips")) ∧
    ((generate_enhanced_image_prompt (fun _ _ => 0) (fun _ : Int => ()) (fun _ _ => (0, ()))
        () "travel tips" 3 5 "instagram" "modern" [] none none
        (some "Bring fewer bags")).slide_visual_context = none ∧
      (generate_enhanced_image_prompt (fun _ _ => 0) (fun _ : Int => ()) (fun _ _ => (0, ()))
        () "travel tips" 3 5 "instagram" "modern" [] none none
        (some "Bring fewer bags")).objects_instruction
      = ObjectsInstruction.layerOne
          [objAt "travel tips" [] 3 0, objAt "travel tips" [] 3 1, objAt "travel tips" [] 3 2]
          (creativeAt "travel tips" [] 3) ∧
      [objAt "travel tips" [] 3 0, objAt "travel tips" [] 3 1,
        objAt "travel tips" [] 3 2].Nodup) :=
  ⟨(generate_enhanced_image_prompt_layer_rule (fun _ _ => 0) (fun _ : Int => ())
      (fun _ _ => (0, ())) () "travel tips" 3 5 "instagram" "modern" [] none
      (some "Pack light") (some "Bring fewer bags")).1 rfl,
   (generate_enhanced_image_prompt_layer_rule (fun _ _ => 0) (fun _ : Int => ())
      (fun _ _ => (0, ())) () "travel tips" 3 5 "instagram" "modern" [] none none
      (some "Bring fewer bags")).2 rfl⟩

end CarouselApp
